import Mathlib

/-!
Formal model of the WAWTELECOM sales-performance backend (Node/Express +
Mongoose).  The definitions are a shallow embedding of the JavaScript source:

* `src/models/User.js` — user schema and its instance methods
  (`comparePassword`, `updateLastLogin`, `incrementLoginAttempts`,
  `unlockAccount`);
* the auth routes (`POST /api/auth/register`, `POST /api/auth/login`);
* `src/middleware/authMiddleware.js` — `protect` and `authorizeRoles`;
* `src/models/Performance.js` — performance schema, virtuals, the
  `pre("save")` cross-field hook and the unique compound index;
* the performance routes (`POST /api/performance`, `GET /api/performance/:id`,
  `DELETE /api/performance/:id`, `GET /api/performance/stats/summary`).

Timestamps are modelled as natural numbers, bcrypt password comparison as a
boolean oracle passed to the login flow, and JavaScript numbers as rationals
(counts, which express-validator constrains to non-negative integers, as
naturals).  Mongo object ids are modelled as naturals.
-/

namespace Wawtelecom

/-- A user document, from userSchema in src/models/User.js.  Only the fields
the authentication / lockout / authorization logic reads or writes are kept
(profile metadata such as telephone or poste carries no invariant).
`statut` ranges over "actif" / "inactif", `role` over the schema enum
"admin" / "manager" / "utilisateur"; `tentativesConnexion` defaults to 0,
`compteBloque` to false, `dateBlocage` is unset until a block happens. -/
structure User where
  uid : Nat
  nom : String
  prenom : String
  email : String
  statut : String
  role : String
  tentativesConnexion : Nat
  compteBloque : Bool
  dateBlocage : Option Nat
  derniereConnexion : Nat
deriving DecidableEq, Repr

/-- userSchema.methods.updateLastLogin: stamps derniereConnexion with the
current time and resets tentativesConnexion to 0; nothing else changes. -/
def updateLastLogin (u : User) (now : Nat) : User :=
  { u with derniereConnexion := now, tentativesConnexion := 0 }

/-- userSchema.methods.incrementLoginAttempts: adds 1 to tentativesConnexion,
then, if the new counter is at least 5, sets compteBloque and dateBlocage. -/
def incrementLoginAttempts (u : User) (now : Nat) : User :=
  if u.tentativesConnexion + 1 ≥ 5 then
    { u with tentativesConnexion := u.tentativesConnexion + 1,
             compteBloque := true, dateBlocage := some now }
  else
    { u with tentativesConnexion := u.tentativesConnexion + 1 }

/-- userSchema.methods.unlockAccount: clears the block flag, the counter and
the block timestamp. -/
def unlockAccount (u : User) : User :=
  { u with compteBloque := false, tentativesConnexion := 0, dateBlocage := none }

/-- Outcome of POST /api/auth/login, abstracting the JSON body to its
distinct shapes (each constructor corresponds to one literal response of the
route, so equal constructors mean byte-identical responses). -/
inductive LoginResp where
  | invalidCredentials
  | accountBlocked
  | accountInactive
  | success
deriving DecidableEq, Repr

/-- HTTP status code the login route attaches to each response shape. -/
def LoginResp.status : LoginResp → Nat
  | .invalidCredentials => 401
  | .accountBlocked => 423
  | .accountInactive => 403
  | .success => 200

/-- POST /api/auth/login (auth routes), after express-validator accepted the
body.  `found` is the result of User.findOne with the password selected;
`passwordValid` is the verdict of bcrypt comparePassword for the submitted
password.  Returns the response shape and the stored user document after the
call's side effects (none when no user matched).  The route checks, in
order: user exists (else 401), compteBloque (423), statut not "actif" (403),
then compares the password — incrementing the attempt counter on failure
(401) and updating the last login on success (200). -/
def login (found : Option User) (passwordValid : Bool) (now : Nat) :
    LoginResp × Option User :=
  match found with
  | none => (.invalidCredentials, none)
  | some u =>
    if u.compteBloque then (.accountBlocked, some u)
    else if u.statut ≠ "actif" then (.accountInactive, some u)
    else if passwordValid then (.success, some (updateLastLogin u now))
    else (.invalidCredentials, some (incrementLoginAttempts u now))

/-- One mutation of a user's lockout-relevant state, as performed by the
code: a failed password check inside login (only reachable when the account
is neither blocked nor inactive, since the route returns before
comparePassword otherwise), a successful login (same guards), or the
administrative unlock method. -/
inductive UserStep : User → User → Prop
  | failedLogin (u : User) (now : Nat)
      (hb : u.compteBloque = false) (hs : u.statut = "actif") :
      UserStep u (incrementLoginAttempts u now)
  | successLogin (u : User) (now : Nat)
      (hb : u.compteBloque = false) (hs : u.statut = "actif") :
      UserStep u (updateLastLogin u now)
  | unlock (u : User) : UserStep u (unlockAccount u)

/-- Lockout states reachable from a freshly created user (schema defaults:
tentativesConnexion = 0, compteBloque = false) under the code's mutations. -/
inductive ReachableUser : User → Prop
  | init (u : User) (h0 : u.tentativesConnexion = 0)
      (hb : u.compteBloque = false) : ReachableUser u
  | step {u v : User} : ReachableUser u → UserStep u v → ReachableUser v

/-- A concrete fresh user used to instantiate theorems with hypotheses. -/
def sampleUser : User :=
  { uid := 1, nom := "Fall", prenom := "Binta", email := "binta@wawtelecom.com"
    statut := "actif", role := "utilisateur", tentativesConnexion := 0
    compteBloque := false, dateBlocage := none, derniereConnexion := 0 }

/-- A concrete blocked user (as left by a 5th failed attempt). -/
def sampleBlockedUser : User :=
  { sampleUser with tentativesConnexion := 5, compteBloque := true,
                    dateBlocage := some 3 }

/-- A concrete active user part-way through a run of failed attempts. -/
def sampleUserThree : User :=
  { sampleUser with tentativesConnexion := 3 }

/-- Minimal authenticated-caller context protect attaches to the request. -/
structure Identity where
  id : Nat
  email : String
  nom : String
  prenom : String
deriving DecidableEq, Repr

/-- Verdict of the token layer for an incoming request, as the protect
middleware observes it: no Bearer authorization header at all, jwt.verify
throwing JsonWebTokenError (malformed or forged) or TokenExpiredError, or a
successful verification yielding the user id embedded in the token. -/
inductive TokenCheck where
  | missing
  | malformed
  | expired
  | valid (uid : Nat)
deriving DecidableEq, Repr

/-- Result of the protect middleware, followed on role-gated routes by
authorizeRoles; ok means the route handler runs with the given identity. -/
inductive GateResult where
  | errMissingToken
  | errInvalidToken
  | errExpiredToken
  | errUserNotFound
  | errInactive
  | errBlocked
  | errRole
  | ok (ident : Identity)
deriving DecidableEq, Repr

/-- HTTP status attached to each gate outcome (200 when the handler runs). -/
def GateResult.status : GateResult → Nat
  | .errMissingToken => 401
  | .errInvalidToken => 401
  | .errExpiredToken => 401
  | .errUserNotFound => 401
  | .errInactive => 403
  | .errBlocked => 423
  | .errRole => 403
  | .ok _ => 200

/-- protect (src/middleware/authMiddleware.js): in order, it rejects when
the authorization header is missing (401), when jwt.verify fails (401,
distinguishing invalid from expired), when User.findById finds nobody
(401), when the account statut is not "actif" (403), and when the account
is blocked (423); otherwise it attaches the minimal identity
(id, email, nom, prenom) to the request. -/
def protect (tok : TokenCheck) (findById : Nat → Option User) : GateResult :=
  match tok with
  | .missing => .errMissingToken
  | .malformed => .errInvalidToken
  | .expired => .errExpiredToken
  | .valid uid =>
    match findById uid with
    | none => .errUserNotFound
    | some u =>
      if u.statut ≠ "actif" then .errInactive
      else if u.compteBloque then .errBlocked
      else .ok ⟨u.uid, u.email, u.nom, u.prenom⟩

/-- authorizeRoles(...roles), run after protect succeeded: it reloads the
user by the identity's id (so a role change takes effect immediately) and
rejects with 403 when the reloaded role is outside the allowed set,
or with 401 when the reload finds nobody. -/
def authorizeRoles (roles : List String) (findById : Nat → Option User)
    (ident : Identity) : GateResult :=
  match findById ident.id with
  | none => .errUserNotFound
  | some u => if u.role ∈ roles then .ok ident else .errRole

/-- Full gate of a protected, role-gated route: protect then authorizeRoles
(router.use(protect) followed by authorizeRoles("admin", "manager")). -/
def roleGate (roles : List String) (tok : TokenCheck)
    (findById : Nat → Option User) : GateResult :=
  match protect tok findById with
  | .ok ident => authorizeRoles roles findById ident
  | e => e

/-- A concrete inactive user and a one-user store for witnesses. -/
def sampleInactiveUser : User :=
  { sampleUser with statut := "inactif" }

def sampleFind : Nat → Option User :=
  fun i => if i = 1 then some sampleInactiveUser else none

/-- A performance document, from performanceSchema in
src/models/Performance.js.  Money amounts and the satisfaction score are
rationals (JavaScript numbers); the counting fields are naturals, since
express-validator admits only non-negative integers for them; pid is the
Mongo document id and utilisateur the owning user's id.  commentaires and
the timestamps carry no invariant and are omitted. -/
structure Perf where
  pid : Nat
  utilisateur : Nat
  annee : Nat
  mois : Nat
  chiffreAffaires : ℚ
  objectifCA : ℚ
  nouveauxClients : Nat
  rdvRealises : Nat
  rdvPlanifies : Nat
  ventesRealisees : Nat
  dossiersMAJ : Nat
  totalDossiers : Nat
  evenements : Nat
  satisfaction : ℚ
  statut : String
deriving DecidableEq, Repr

/-- JavaScript's Math.round: nearest integer with halves rounded toward
positive infinity, i.e. the floor of x + 1/2. -/
def jsRound (q : ℚ) : ℤ := ⌊q + 1 / 2⌋

/-- Virtual tauxTransformation: 0 when rdvRealises is 0, otherwise
Math.round((ventesRealisees / rdvRealises) * 100). -/
def tauxTransformation (p : Perf) : ℤ :=
  if p.rdvRealises = 0 then 0
  else jsRound ((p.ventesRealisees : ℚ) / (p.rdvRealises : ℚ) * 100)

/-- Virtual completudeDossiers: 0 when totalDossiers is 0, otherwise
Math.round((dossiersMAJ / totalDossiers) * 100). -/
def completudeDossiers (p : Perf) : ℤ :=
  if p.totalDossiers = 0 then 0
  else jsRound ((p.dossiersMAJ : ℚ) / (p.totalDossiers : ℚ) * 100)

/-- Virtual tauxObjectif: 0 when objectifCA is 0, otherwise
Math.round((chiffreAffaires / objectifCA) * 100). -/
def tauxObjectif (p : Perf) : ℤ :=
  if p.objectifCA = 0 then 0
  else jsRound (p.chiffreAffaires / p.objectifCA * 100)

/-- Zero-guarded percentage exactly as the specification words it:
round(100 × numerator / denominator), with result 0 when the denominator is
0.  Kept separate from the virtuals above (which transcribe the source) so
that agreement between the two is a theorem. -/
def rateSpec (num den : ℚ) : ℤ :=
  if den = 0 then 0 else jsRound (100 * num / den)

/-- Body of POST /api/performance.  Fields the body may omit take the
schema defaults (rdvPlanifies 0, evenements 0, satisfaction 4, statut
"valide"). -/
structure PerfPayload where
  annee : Nat
  mois : Nat
  chiffreAffaires : ℚ
  objectifCA : ℚ
  nouveauxClients : Nat
  rdvRealises : Nat
  rdvPlanifies : Nat := 0
  ventesRealisees : Nat
  dossiersMAJ : Nat
  totalDossiers : Nat
  evenements : Nat := 0
  satisfaction : ℚ := 4
  statut : String := "valide"
deriving DecidableEq, Repr

/-- express-validator layer of POST /api/performance: annee in 2020..2030,
mois in 1..12, satisfaction in 1..5; the integer / non-negativity
constraints are carried by the field types. -/
def routeBodyOk (b : PerfPayload) : Bool :=
  2020 ≤ b.annee && b.annee ≤ 2030 && 1 ≤ b.mois && b.mois ≤ 12 &&
    1 ≤ b.satisfaction && b.satisfaction ≤ 5

/-- Schema path validators of performanceSchema, which Mongoose runs on
create and, because the route passes runValidators, on findByIdAndUpdate as
well: periode ranges, non-negative amounts, satisfaction between 1 and 5,
statut in the enum.  The min-0 validators on the counting fields hold by
type. -/
def schemaPathOk (p : Perf) : Bool :=
  2020 ≤ p.annee && p.annee ≤ 2030 && 1 ≤ p.mois && p.mois ≤ 12 &&
    0 ≤ p.chiffreAffaires && 0 ≤ p.objectifCA &&
    1 ≤ p.satisfaction && p.satisfaction ≤ 5 &&
    (p.statut == "brouillon" || p.statut == "valide")

/-- The pre("save") hook of performanceSchema: it rejects ventesRealisees >
rdvRealises and dossiersMAJ > totalDossiers.  Mongoose runs document
pre("save") middleware on save()/create() only; a findByIdAndUpdate does
not trigger it (runValidators re-runs the path validators above, not this
hook). -/
def preSaveOk (p : Perf) : Bool :=
  !(p.ventesRealisees > p.rdvRealises) && !(p.dossiersMAJ > p.totalDossiers)

/-- The performance collection: stored documents plus the id the next
insert receives. -/
structure PerfStore where
  recs : List Perf
  nextId : Nat
deriving DecidableEq, Repr

/-- Store sanity maintained by the persistence layer: document ids are
pairwise distinct and below the next fresh id. -/
def PerfStore.wf (s : PerfStore) : Prop :=
  s.recs.Pairwise (fun a b => a.pid ≠ b.pid) ∧ ∀ r ∈ s.recs, r.pid < s.nextId

/-- Key predicate backing both the route's findOne filter and the unique
compound index (utilisateur, periode.annee, periode.mois). -/
def keyMatch (uid annee mois : Nat) (r : Perf) : Bool :=
  r.utilisateur == uid && r.annee == annee && r.mois == mois

/-- Number of stored documents holding one (user, year, month) key. -/
def countKey (s : PerfStore) (uid annee mois : Nat) : Nat :=
  (s.recs.filter (keyMatch uid annee mois)).length

/-- Document the body materialises into, as performanceData =
spread of req.body plus utilisateur = req.user.id, placed on the document
with the given id. -/
def docOfPayload (pid uid : Nat) (b : PerfPayload) : Perf :=
  { pid := pid, utilisateur := uid, annee := b.annee, mois := b.mois,
    chiffreAffaires := b.chiffreAffaires, objectifCA := b.objectifCA,
    nouveauxClients := b.nouveauxClients, rdvRealises := b.rdvRealises,
    rdvPlanifies := b.rdvPlanifies, ventesRealisees := b.ventesRealisees,
    dossiersMAJ := b.dossiersMAJ, totalDossiers := b.totalDossiers,
    evenements := b.evenements, satisfaction := b.satisfaction,
    statut := b.statut }

/-- Validity of a payload for user uid: passes the schema path validators
and the cross-field pre("save") checks (the document id plays no part in
either). -/
def payloadValid (uid : Nat) (b : PerfPayload) : Bool :=
  schemaPathOk (docOfPayload 0 uid b) && preSaveOk (docOfPayload 0 uid b)

/-- Outcome of POST /api/performance: 400 for an express-validator failure,
201 create, 200 update, 500 for a Mongoose validation error surfacing
through the route's generic catch (the route maps only error code 11000,
the duplicate-key race, to 400). -/
inductive UpsertOutcome where
  | badRequest
  | created (p : Perf)
  | updated (p : Perf)
  | serverError
deriving DecidableEq, Repr

def UpsertOutcome.status : UpsertOutcome → Nat
  | .badRequest => 400
  | .created _ => 201
  | .updated _ => 200
  | .serverError => 500

/-- POST /api/performance: after express-validator, findOne for
(req.user.id, periode.annee, periode.mois); when a document exists,
findByIdAndUpdate replaces its fields under runValidators — path
validators only, the pre("save") cross-field hook does not run on this
path; when none exists, Performance.create runs the path validators and
the pre("save") hook, then inserts.  A failed write persists nothing. -/
def upsert (s : PerfStore) (uid : Nat) (b : PerfPayload) :
    UpsertOutcome × PerfStore :=
  if routeBodyOk b then
    match s.recs.find? (keyMatch uid b.annee b.mois) with
    | some existing =>
      let updatedDoc := docOfPayload existing.pid uid b
      if schemaPathOk updatedDoc then
        (.updated updatedDoc,
         { s with recs := s.recs.map fun r =>
             if r.pid == existing.pid then updatedDoc else r })
      else (.serverError, s)
    | none =>
      let newDoc := docOfPayload s.nextId uid b
      if schemaPathOk newDoc && preSaveOk newDoc then
        (.created newDoc,
         { recs := s.recs ++ [newDoc], nextId := s.nextId + 1 })
      else (.serverError, s)
  else (.badRequest, s)

/-- Outcome of the single-record GET and DELETE routes. -/
inductive RecOutcome where
  | notFound
  | forbidden
  | okData (p : Perf)
  | okDeleted
deriving DecidableEq, Repr

def RecOutcome.status : RecOutcome → Nat
  | .notFound => 404
  | .forbidden => 403
  | .okData _ => 200
  | .okDeleted => 200

/-- GET /api/performance/:id — findById, 404 when absent, 403 when the
record's owner differs from the caller (the caller's role is never
consulted on this route), otherwise the record. -/
def getPerformanceById (s : PerfStore) (caller : User) (pid : Nat) :
    RecOutcome :=
  match s.recs.find? (fun r => r.pid == pid) with
  | none => .notFound
  | some p => if p.utilisateur ≠ caller.uid then .forbidden else .okData p

/-- DELETE /api/performance/:id — findById, 404 when absent, 403 when the
owner differs from the caller (role never consulted); only past both
checks does findByIdAndDelete remove the document. -/
def deletePerformanceById (s : PerfStore) (caller : User) (pid : Nat) :
    RecOutcome × PerfStore :=
  match s.recs.find? (fun r => r.pid == pid) with
  | none => (.notFound, s)
  | some p =>
    if p.utilisateur ≠ caller.uid then (.forbidden, s)
    else (.okDeleted, { s with recs := s.recs.filter fun r => r.pid != pid })

/-- Aggregate row answered by GET /api/performance/stats/summary. -/
structure Summary where
  totalCA : ℚ
  totalObjectif : ℚ
  totalClients : Nat
  totalRDV : Nat
  totalVentes : Nat
  totalEvenements : Nat
  satisfactionMoyenne : ℚ
  count : Nat
  tauxTransformation : ℤ
  tauxObjectif : ℤ
deriving DecidableEq, Repr

/-- The summary route's matchFilter: the caller's documents for the given
year (optionally narrowed to one month) with statut "valide". -/
def summaryMatch (uid annee : Nat) (mois : Option Nat) (r : Perf) : Bool :=
  r.utilisateur == uid && r.annee == annee && r.statut == "valide" &&
    (match mois with | none => true | some m => r.mois == m)

/-- GET /api/performance/stats/summary: $match, then $group summing each
additive metric and averaging satisfaction, falling back to the all-zero
object when the aggregation returns no row, then the two zero-guarded
rates.  The route always answers 200 with this object. -/
def summarize (recs : List Perf) (uid annee : Nat) (mois : Option Nat) :
    Summary :=
  let matched := recs.filter (summaryMatch uid annee mois)
  let totalRDV := (matched.map (·.rdvRealises)).sum
  let totalVentes := (matched.map (·.ventesRealisees)).sum
  let totalCA := (matched.map (·.chiffreAffaires)).sum
  let totalObjectif := (matched.map (·.objectifCA)).sum
  { totalCA := totalCA
    totalObjectif := totalObjectif
    totalClients := (matched.map (·.nouveauxClients)).sum
    totalRDV := totalRDV
    totalVentes := totalVentes
    totalEvenements := (matched.map (·.evenements)).sum
    satisfactionMoyenne :=
      if matched.length = 0 then 0
      else (matched.map (·.satisfaction)).sum / (matched.length : ℚ)
    count := matched.length
    tauxTransformation :=
      if totalRDV > 0 then jsRound ((totalVentes : ℚ) / (totalRDV : ℚ) * 100)
      else 0
    tauxObjectif :=
      if totalObjectif > 0 then jsRound (totalCA / totalObjectif * 100)
      else 0 }

/-- The all-zero summary object. -/
def zeroSummary : Summary :=
  { totalCA := 0, totalObjectif := 0, totalClients := 0, totalRDV := 0,
    totalVentes := 0, totalEvenements := 0, satisfactionMoyenne := 0,
    count := 0, tauxTransformation := 0, tauxObjectif := 0 }

/-- Role enum of userSchema. -/
def roleEnum : List String := ["admin", "manager", "utilisateur"]

/-- Body of POST /api/auth/register; role is absent or whatever string the
caller supplied.  The route is public: no protect middleware and no role
restriction guards it. -/
structure RegisterInput where
  nom : String
  prenom : String
  email : String
  password : String
  role : Option String
deriving DecidableEq, Repr

/-- Whitespace trimming (the validator's trim sanitizer), written over the
character list so that it evaluates. -/
def strTrim (s : String) : String :=
  String.mk
    (((s.data.dropWhile (·.isWhitespace)).reverse.dropWhile
        (·.isWhitespace)).reverse)

/-- Lowercasing (normalizeEmail and the schema's lowercase option on the
email path), written over the character list so that it evaluates. -/
def strLower (s : String) : String :=
  String.mk (s.data.map Char.toLower)

/-- express-validator layer of the register route: nom and prenom at least
2 characters after trimming, password at least 6 characters; emailOk
abstracts the isEmail verdict on the submitted address. -/
def registerBodyOk (inp : RegisterInput) (emailOk : Bool) : Bool :=
  (strTrim inp.nom).length ≥ 2 && (strTrim inp.prenom).length ≥ 2 &&
    emailOk && inp.password.length ≥ 6

/-- Outcome of POST /api/auth/register. -/
inductive RegisterOutcome where
  | invalidInput
  | duplicateEmail
  | created (u : User)
  | serverError
deriving DecidableEq, Repr

/-- POST /api/auth/register: validator layer (400), duplicate-email lookup
(400), then User.create with whatever role the body carried — the schema
only checks membership of the enum and applies the default "utilisateur"
when the field is absent.  normalizeEmail is modelled as lowercasing (the
userSchema lowercases the stored email as well). -/
def register (users : List User) (inp : RegisterInput) (emailOk : Bool)
    (newId now : Nat) : RegisterOutcome × List User :=
  if registerBodyOk inp emailOk then
    if users.any fun u => u.email == strLower inp.email then
      (.duplicateEmail, users)
    else
      match inp.role with
      | some r =>
        if r ∈ roleEnum then
          let u : User :=
            { uid := newId, nom := strTrim inp.nom, prenom := strTrim inp.prenom,
              email := strLower inp.email, statut := "actif", role := r,
              tentativesConnexion := 0, compteBloque := false,
              dateBlocage := none, derniereConnexion := now }
          (.created u, users ++ [u])
        else (.serverError, users)
      | none =>
        let u : User :=
          { uid := newId, nom := strTrim inp.nom, prenom := strTrim inp.prenom,
            email := strLower inp.email, statut := "actif",
            role := "utilisateur", tentativesConnexion := 0,
            compteBloque := false, dateBlocage := none,
            derniereConnexion := now }
        (.created u, users ++ [u])
  else (.invalidInput, users)

/-- A concrete validated performance document (also realising the spec's
rate examples: 40 appointments / 20 sales, revenue 90000 / target 100000). -/
def samplePerf : Perf :=
  { pid := 1, utilisateur := 1, annee := 2024, mois := 3,
    chiffreAffaires := 90000, objectifCA := 100000, nouveauxClients := 5,
    rdvRealises := 40, rdvPlanifies := 0, ventesRealisees := 20,
    dossiersMAJ := 5, totalDossiers := 10, evenements := 0,
    satisfaction := 4, statut := "valide" }

/-- A payload violating the cross-field rule: 5 sales against 3
appointments (every field-level validator passes). -/
def inconsistentPayload : PerfPayload :=
  { annee := 2024, mois := 3, chiffreAffaires := 100000,
    objectifCA := 100000, nouveauxClients := 5, rdvRealises := 3,
    ventesRealisees := 5, dossiersMAJ := 3, totalDossiers := 10 }

/-- A payload passing every validator, cross-field rules included. -/
def validPayload : PerfPayload :=
  { annee := 2024, mois := 5, chiffreAffaires := 80000,
    objectifCA := 100000, nouveauxClients := 3, rdvRealises := 30,
    ventesRealisees := 10, dossiersMAJ := 4, totalDossiers := 10 }

/-- Store already holding samplePerf for (user 1, 2024, 3). -/
def seededStore : PerfStore := { recs := [samplePerf], nextId := 2 }

/-- The empty performance store. -/
def emptyPerfStore : PerfStore := { recs := [], nextId := 1 }

/-- A caller distinct from samplePerf's owner, with the admin role. -/
def otherCaller : User := { sampleUser with uid := 2, role := "admin" }

/-- A concrete register body carrying role "admin". -/
def adminRegBody : RegisterInput :=
  { nom := "Ngom", prenom := "Bourama", email := "boura@wawtelecom.com",
    password := "password123", role := some "admin" }

theorem incrementLoginAttempts_tent (u : User) (now : Nat) :
    (incrementLoginAttempts u now).tentativesConnexion
      = u.tentativesConnexion + 1 := by
  unfold incrementLoginAttempts; split <;> rfl

theorem incrementLoginAttempts_bloque (u : User) (now : Nat) :
    (incrementLoginAttempts u now).compteBloque
      = if u.tentativesConnexion + 1 ≥ 5 then true else u.compteBloque := by
  unfold incrementLoginAttempts; split <;> rfl

theorem incrementLoginAttempts_dateBlocage (u : User) (now : Nat) :
    (incrementLoginAttempts u now).dateBlocage
      = if u.tentativesConnexion + 1 ≥ 5 then some now else u.dateBlocage := by
  unfold incrementLoginAttempts; split <;> rfl

theorem reachable_active_lt_five {u : User} (hr : ReachableUser u)
    (hb : u.compteBloque = false) : u.tentativesConnexion < 5 := by
  induction hr with
  | init u h0 _ => omega
  | step _ hstep ih =>
    cases hstep with
    | failedLogin now hb' hs =>
      have h5 := ih hb'
      rw [incrementLoginAttempts_bloque] at hb
      rw [incrementLoginAttempts_tent]
      split at hb
      · simp at hb
      · omega
    | successLogin now hb' hs => simp [updateLastLogin]
    | unlock => simp [unlockAccount]

/-- C3: while a user is in the active (non-blocked) state — any state the
code can actually reach — a failed password check increments the counter by
exactly 1, the blocked flag after the call is true exactly when the new
counter equals 5, and the block timestamp is stamped at that transition. -/
theorem failed_attempt_blocks_exactly_at_five (u : User) (now : Nat)
    (hr : ReachableUser u) (hb : u.compteBloque = false) :
    (incrementLoginAttempts u now).tentativesConnexion
        = u.tentativesConnexion + 1 ∧
    ((incrementLoginAttempts u now).compteBloque = true ↔
        (incrementLoginAttempts u now).tentativesConnexion = 5) ∧
    ((incrementLoginAttempts u now).compteBloque = true →
        (incrementLoginAttempts u now).dateBlocage = some now) := by
  have h5 := reachable_active_lt_five hr hb
  refine ⟨incrementLoginAttempts_tent u now, ?_, ?_⟩
  · rw [incrementLoginAttempts_bloque, incrementLoginAttempts_tent]
    by_cases hc : u.tentativesConnexion + 1 ≥ 5
    · rw [if_pos hc]; simp; omega
    · rw [if_neg hc, hb]; simp; omega
  · rw [incrementLoginAttempts_bloque, incrementLoginAttempts_dateBlocage]
    by_cases hc : u.tentativesConnexion + 1 ≥ 5
    · rw [if_pos hc, if_pos hc]; intro _; rfl
    · rw [if_neg hc, if_neg hc, hb]; intro h; cases h

theorem failed_attempt_blocks_exactly_at_five_witness :
    (incrementLoginAttempts sampleUser 7).tentativesConnexion
        = sampleUser.tentativesConnexion + 1 ∧
    ((incrementLoginAttempts sampleUser 7).compteBloque = true ↔
        (incrementLoginAttempts sampleUser 7).tentativesConnexion = 5) ∧
    ((incrementLoginAttempts sampleUser 7).compteBloque = true →
        (incrementLoginAttempts sampleUser 7).dateBlocage = some 7) :=
  failed_attempt_blocks_exactly_at_five sampleUser 7
    (ReachableUser.init sampleUser rfl rfl) rfl

/-- C4: a login attempt against a blocked account is answered with the
distinct blocked response (HTTP 423) before any password comparison: the
whole login outcome, state included, is identical for any two candidate
passwords, so the response never reveals whether the password was correct,
and the stored user is left unchanged. -/
theorem blocked_login_independent_of_password (u : User) (p₁ p₂ : Bool)
    (now : Nat) (hb : u.compteBloque = true) :
    login (some u) p₁ now = login (some u) p₂ now ∧
    (login (some u) p₁ now).1 = .accountBlocked ∧
    (login (some u) p₁ now).1.status = 423 ∧
    (login (some u) p₁ now).2 = some u := by
  simp [login, hb, LoginResp.status]

theorem blocked_login_independent_of_password_witness :
    login (some sampleBlockedUser) true 9 = login (some sampleBlockedUser) false 9 ∧
    (login (some sampleBlockedUser) true 9).1 = .accountBlocked ∧
    (login (some sampleBlockedUser) true 9).1.status = 423 ∧
    (login (some sampleBlockedUser) true 9).2 = some sampleBlockedUser :=
  blocked_login_independent_of_password sampleBlockedUser true false 9 rfl

/-- C5: a successful login (account neither blocked nor inactive, password
valid) resets the failed-attempt counter to 0 and stamps the last-login
time, and that same call leaves the blocked flag and the block timestamp
exactly as they were, whatever the counter's prior value. -/
theorem successful_login_resets_counter (u : User) (now : Nat)
    (hb : u.compteBloque = false) (hs : u.statut = "actif") :
    login (some u) true now = (.success, some (updateLastLogin u now)) ∧
    (updateLastLogin u now).tentativesConnexion = 0 ∧
    (updateLastLogin u now).derniereConnexion = now ∧
    (updateLastLogin u now).compteBloque = u.compteBloque ∧
    (updateLastLogin u now).dateBlocage = u.dateBlocage := by
  refine ⟨by simp [login, hb, hs], rfl, rfl, rfl, rfl⟩

theorem successful_login_resets_counter_witness :
    login (some sampleUserThree) true 11
        = (.success, some (updateLastLogin sampleUserThree 11)) ∧
    (updateLastLogin sampleUserThree 11).tentativesConnexion = 0 ∧
    (updateLastLogin sampleUserThree 11).derniereConnexion = 11 ∧
    (updateLastLogin sampleUserThree 11).compteBloque
        = sampleUserThree.compteBloque ∧
    (updateLastLogin sampleUserThree 11).dateBlocage
        = sampleUserThree.dateBlocage :=
  successful_login_resets_counter sampleUserThree 11 rfl rfl

/-- C6: on a protected route the gate decides failures in the fixed order
missing token, invalid token, expired token, user lookup failure, account
inactive, account blocked, insufficient role; each failure is reported only
with every earlier check passed, and in particular a cryptographically
valid, unexpired token is rejected at the gate whenever the looked-up
account is by then inactive or blocked, because that state is re-read on
every request.  `hstore` says the store is consistent: a user found under
an id carries that id. -/
theorem gate_checks_fixed_order (roles : List String) (tok : TokenCheck)
    (findById : Nat → Option User)
    (hstore : ∀ i u, findById i = some u → u.uid = i) :
    (roleGate roles tok findById = .errMissingToken ↔ tok = .missing) ∧
    (roleGate roles tok findById = .errInvalidToken ↔ tok = .malformed) ∧
    (roleGate roles tok findById = .errExpiredToken ↔ tok = .expired) ∧
    (∀ uid, tok = .valid uid → findById uid = none →
        roleGate roles tok findById = .errUserNotFound) ∧
    (∀ uid u, tok = .valid uid → findById uid = some u →
        u.statut ≠ "actif" → roleGate roles tok findById = .errInactive) ∧
    (∀ uid u, tok = .valid uid → findById uid = some u →
        u.statut = "actif" → u.compteBloque = true →
        roleGate roles tok findById = .errBlocked) ∧
    (∀ uid u, tok = .valid uid → findById uid = some u →
        u.statut = "actif" → u.compteBloque = false → u.role ∉ roles →
        roleGate roles tok findById = .errRole) := by
  refine ⟨?_, ?_, ?_, ?_, ?_, ?_, ?_⟩
  · constructor
    · intro h
      cases tok with
      | missing => rfl
      | malformed => simp [roleGate, protect] at h
      | expired => simp [roleGate, protect] at h
      | valid uid =>
        exfalso
        simp only [roleGate, protect] at h
        cases hf : findById uid with
        | none => rw [hf] at h; simp at h
        | some u =>
          rw [hf] at h
          by_cases hs : u.statut = "actif" <;>
            by_cases hb : u.compteBloque <;>
              simp [hs, hb, authorizeRoles] at h <;>
                cases hf2 : findById u.uid <;> rw [hf2] at h <;> simp at h
          split at h <;> simp at h
    · intro h; subst h; rfl
  · constructor
    · intro h
      cases tok with
      | malformed => rfl
      | missing => simp [roleGate, protect] at h
      | expired => simp [roleGate, protect] at h
      | valid uid =>
        exfalso
        simp only [roleGate, protect] at h
        cases hf : findById uid with
        | none => rw [hf] at h; simp at h
        | some u =>
          rw [hf] at h
          by_cases hs : u.statut = "actif" <;>
            by_cases hb : u.compteBloque <;>
              simp [hs, hb, authorizeRoles] at h <;>
                cases hf2 : findById u.uid <;> rw [hf2] at h <;> simp at h
          split at h <;> simp at h
    · intro h; subst h; rfl
  · constructor
    · intro h
      cases tok with
      | expired => rfl
      | missing => simp [roleGate, protect] at h
      | malformed => simp [roleGate, protect] at h
      | valid uid =>
        exfalso
        simp only [roleGate, protect] at h
        cases hf : findById uid with
        | none => rw [hf] at h; simp at h
        | some u =>
          rw [hf] at h
          by_cases hs : u.statut = "actif" <;>
            by_cases hb : u.compteBloque <;>
              simp [hs, hb, authorizeRoles] at h <;>
                cases hf2 : findById u.uid <;> rw [hf2] at h <;> simp at h
          split at h <;> simp at h
    · intro h; subst h; rfl
  · intro uid htok hf
    subst htok
    simp [roleGate, protect, hf]
  · intro uid u htok hf hs
    subst htok
    simp [roleGate, protect, hf, hs]
  · intro uid u htok hf hs hb
    subst htok
    simp [roleGate, protect, hf, hs, hb]
  · intro uid u htok hf hs hb hrole
    subst htok
    have huid : u.uid = uid := hstore uid u hf
    simp [roleGate, protect, hf, hs, hb, authorizeRoles, huid, hrole]

theorem gate_checks_fixed_order_witness :
    roleGate ["admin", "manager"] (.valid 1) sampleFind = .errInactive :=
  (gate_checks_fixed_order ["admin", "manager"] (.valid 1) sampleFind
      (by intro i u h
          unfold sampleFind at h
          split at h
          · cases h; simp_all [sampleInactiveUser, sampleUser]
          · cases h)).2.2.2.2.1
    1 sampleInactiveUser rfl (by decide) (by decide)

theorem key_of_docOfPayload (u a m pid uid : Nat) (b : PerfPayload)
    (h : keyMatch u a m (docOfPayload pid uid b) = true) :
    u = uid ∧ a = b.annee ∧ m = b.mois := by
  simp [keyMatch, docOfPayload] at h
  refine ⟨?_, ?_, ?_⟩ <;> omega

theorem keyMatch_docOfPayload_self (pid uid : Nat) (b : PerfPayload) :
    keyMatch uid b.annee b.mois (docOfPayload pid uid b) = true := by
  simp [keyMatch, docOfPayload]

theorem countKey_eq_zero_iff (s : PerfStore) (uid a m : Nat) :
    countKey s uid a m = 0 ↔
      s.recs.find? (keyMatch uid a m) = none := by
  simp [countKey, List.length_eq_zero, List.filter_eq_nil_iff,
    List.find?_eq_none]

theorem map_update_id_of_no_pid (d : Perf) (pid0 : Nat) (l : List Perf)
    (h : ∀ r ∈ l, r.pid ≠ pid0) :
    (l.map fun r => if r.pid == pid0 then d else r) = l := by
  induction l with
  | nil => rfl
  | cons x xs ih =>
    rw [List.map_cons,
      if_neg (by simpa using h x (List.mem_cons_self x xs)),
      ih fun r hr => h r (List.mem_cons_of_mem x hr)]

theorem filter_length_map_update (p : Perf → Bool) (d : Perf)
    (recs : List Perf) (e : Perf)
    (hw : recs.Pairwise fun a b => a.pid ≠ b.pid) (he : e ∈ recs) :
    ((recs.map fun r => if r.pid == e.pid then d else r).filter p).length
        + (if p e then 1 else 0)
      = (recs.filter p).length + (if p d then 1 else 0) := by
  induction recs with
  | nil => cases he
  | cons a t ih =>
    rw [List.pairwise_cons] at hw
    rcases List.mem_cons.mp he with rfl | he'
    · rw [List.map_cons, if_pos (by simp),
        map_update_id_of_no_pid d e.pid t
          fun r hr => Ne.symm (hw.1 r hr),
        List.filter_cons, List.filter_cons]
      by_cases hd : p d <;> by_cases ha : p e <;>
        simp [hd, ha] <;> omega
    · have hne : a.pid ≠ e.pid := hw.1 e he'
      have hrec := ih hw.2 he'
      rw [List.map_cons, if_neg (by simpa using hne),
        List.filter_cons, List.filter_cons]
      by_cases ha : p a = true
      · rw [if_pos ha, if_pos ha]
        simp only [List.length_cons]
        omega
      · rw [if_neg ha, if_neg ha]
        omega

theorem countKey_mk (l : List Perf) (n u a m : Nat) :
    countKey ⟨l, n⟩ u a m = (l.filter (keyMatch u a m)).length := rfl

theorem countKey_append (l : List Perf) (n : Nat) (d : Perf)
    (u a m : Nat) :
    countKey ⟨l ++ [d], n⟩ u a m
      = (l.filter (keyMatch u a m)).length
          + (if keyMatch u a m d then 1 else 0) := by
  rw [countKey_mk, List.filter_append, List.length_append,
    List.filter_cons]
  split <;> simp

theorem countKey_map_update (l : List Perf) (n : Nat) (e d : Perf)
    (hw : l.Pairwise fun a b => a.pid ≠ b.pid) (he : e ∈ l)
    (u a m : Nat) :
    countKey ⟨l.map fun r => if r.pid == e.pid then d else r, n⟩ u a m
        + (if keyMatch u a m e then 1 else 0)
      = (l.filter (keyMatch u a m)).length
          + (if keyMatch u a m d then 1 else 0) :=
  filter_length_map_update (keyMatch u a m) d l e hw he

/-- C1: under the store sanity the persistence layer maintains (distinct
document ids, fresh next id) and the at-most-one-record-per-key invariant,
an upsert of a valid payload preserves both, and: when no record holds the
caller's (user, year, month) key the call creates one (201) leaving exactly
one record for the key; when a record already holds the key the call
reports updated (200) and the key's record count is still exactly one — an
update in place, never a second insert. -/
theorem upsert_keeps_one_record_per_period (s : PerfStore) (uid : Nat)
    (b : PerfPayload) (hwf : s.wf)
    (hinv : ∀ u a m, countKey s u a m ≤ 1)
    (hok : routeBodyOk b = true) (hvalid : payloadValid uid b = true) :
    (upsert s uid b).2.wf ∧
    (∀ u a m, countKey (upsert s uid b).2 u a m ≤ 1) ∧
    (countKey s uid b.annee b.mois = 0 →
        (upsert s uid b).1 = .created (docOfPayload s.nextId uid b) ∧
        UpsertOutcome.status (upsert s uid b).1 = 201 ∧
        countKey (upsert s uid b).2 uid b.annee b.mois = 1) ∧
    (1 ≤ countKey s uid b.annee b.mois →
        (∃ p, (upsert s uid b).1 = .updated p) ∧
        UpsertOutcome.status (upsert s uid b).1 = 200 ∧
        countKey (upsert s uid b).2 uid b.annee b.mois = 1) := by
  obtain ⟨hpw, hbound⟩ := hwf
  have hsch : schemaPathOk (docOfPayload 0 uid b) = true ∧
      preSaveOk (docOfPayload 0 uid b) = true := by
    simpa [payloadValid, Bool.and_eq_true] using hvalid
  have hsch' : ∀ pid, schemaPathOk (docOfPayload pid uid b) = true :=
    fun _ => hsch.1
  have hpre' : ∀ pid, preSaveOk (docOfPayload pid uid b) = true :=
    fun _ => hsch.2
  cases hf : s.recs.find? (keyMatch uid b.annee b.mois) with
  | none =>
    have hcount0 :
        (s.recs.filter (keyMatch uid b.annee b.mois)).length = 0 :=
      (countKey_eq_zero_iff s uid b.annee b.mois).mpr hf
    have hres1 : (upsert s uid b).1
        = .created (docOfPayload s.nextId uid b) := by
      simp [upsert, hok, hf, hsch' s.nextId, hpre' s.nextId]
    have hres2 : (upsert s uid b).2
        = ⟨s.recs ++ [docOfPayload s.nextId uid b], s.nextId + 1⟩ := by
      simp [upsert, hok, hf, hsch' s.nextId, hpre' s.nextId]
    rw [hres1, hres2]
    refine ⟨⟨?_, ?_⟩, ?_, ?_, ?_⟩
    · rw [List.pairwise_append]
      refine ⟨hpw, List.pairwise_singleton _ _, ?_⟩
      intro r hr r' hr'
      rcases List.mem_singleton.mp hr' with rfl
      simpa [docOfPayload] using Nat.ne_of_lt (hbound r hr)
    · intro r hr
      rcases List.mem_append.mp hr with h | h
      · exact Nat.lt_succ_of_lt (hbound r h)
      · rcases List.mem_singleton.mp h with rfl
        simp [docOfPayload]
    · intro u a m
      have hb1 : (s.recs.filter (keyMatch u a m)).length ≤ 1 :=
        hinv u a m
      rw [countKey_append]
      by_cases hk : keyMatch u a m (docOfPayload s.nextId uid b) = true
      · obtain ⟨rfl, rfl, rfl⟩ :=
          key_of_docOfPayload u a m s.nextId uid b hk
        rw [if_pos hk]
        omega
      · rw [if_neg hk]
        omega
    · intro _
      refine ⟨rfl, rfl, ?_⟩
      rw [countKey_append,
        if_pos (keyMatch_docOfPayload_self s.nextId uid b)]
      omega
    · intro h1
      have h1' : 1 ≤ (s.recs.filter (keyMatch uid b.annee b.mois)).length :=
        h1
      omega
  | some e =>
    have hpe : keyMatch uid b.annee b.mois e = true := List.find?_some hf
    have hme : e ∈ s.recs := List.mem_of_find?_eq_some hf
    have hres1 : (upsert s uid b).1
        = .updated (docOfPayload e.pid uid b) := by
      simp [upsert, hok, hf, hsch' e.pid]
    have hres2 : (upsert s uid b).2
        = ⟨s.recs.map fun r =>
             if r.pid == e.pid then docOfPayload e.pid uid b else r,
           s.nextId⟩ := by
      simp [upsert, hok, hf, hsch' e.pid]
    rw [hres1, hres2]
    have hpidmap : ∀ r : Perf,
        (if r.pid == e.pid then docOfPayload e.pid uid b else r).pid
          = r.pid := by
      intro r
      by_cases h : r.pid = e.pid
      · simp [h, docOfPayload]
      · simp [h]
    refine ⟨⟨?_, ?_⟩, ?_, ?_, ?_⟩
    · rw [List.pairwise_map]
      refine hpw.imp ?_
      intro a c hac
      rw [hpidmap, hpidmap]
      exact hac
    · intro r hr
      rcases List.mem_map.mp hr with ⟨r0, hr0, rfl⟩
      rw [hpidmap]
      exact hbound r0 hr0
    · intro u a m
      have heq := countKey_map_update s.recs s.nextId e
        (docOfPayload e.pid uid b) hpw hme u a m
      have hb1 : (s.recs.filter (keyMatch u a m)).length ≤ 1 :=
        hinv u a m
      by_cases hk : keyMatch u a m (docOfPayload e.pid uid b) = true
      · obtain ⟨rfl, rfl, rfl⟩ :=
          key_of_docOfPayload u a m e.pid uid b hk
        rw [if_pos hk, if_pos hpe] at heq
        omega
      · rw [if_neg hk] at heq
        by_cases hke : keyMatch u a m e = true
        · rw [if_pos hke] at heq
          omega
        · rw [if_neg hke] at heq
          omega
    · intro h0
      have hnone := (countKey_eq_zero_iff s uid b.annee b.mois).mp h0
      rw [hf] at hnone
      cases hnone
    · intro h1
      refine ⟨⟨docOfPayload e.pid uid b, rfl⟩, rfl, ?_⟩
      have heq := countKey_map_update s.recs s.nextId e
        (docOfPayload e.pid uid b) hpw hme uid b.annee b.mois
      rw [if_pos hpe,
        if_pos (keyMatch_docOfPayload_self e.pid uid b)] at heq
      have hb1 : (s.recs.filter (keyMatch uid b.annee b.mois)).length ≤ 1 :=
        hinv uid b.annee b.mois
      have h1' : 1 ≤ (s.recs.filter (keyMatch uid b.annee b.mois)).length :=
        h1
      omega

theorem upsert_keeps_one_record_per_period_witness :
    (upsert emptyPerfStore 1 validPayload).2.wf ∧
    (∀ u a m, countKey (upsert emptyPerfStore 1 validPayload).2 u a m ≤ 1) ∧
    (countKey emptyPerfStore 1 validPayload.annee validPayload.mois = 0 →
        (upsert emptyPerfStore 1 validPayload).1
            = .created (docOfPayload emptyPerfStore.nextId 1 validPayload) ∧
        UpsertOutcome.status (upsert emptyPerfStore 1 validPayload).1
            = 201 ∧
        countKey (upsert emptyPerfStore 1 validPayload).2 1
            validPayload.annee validPayload.mois = 1) ∧
    (1 ≤ countKey emptyPerfStore 1 validPayload.annee validPayload.mois →
        (∃ p, (upsert emptyPerfStore 1 validPayload).1 = .updated p) ∧
        UpsertOutcome.status (upsert emptyPerfStore 1 validPayload).1
            = 200 ∧
        countKey (upsert emptyPerfStore 1 validPayload).2 1
            validPayload.annee validPayload.mois = 1) :=
  upsert_keeps_one_record_per_period emptyPerfStore 1 validPayload
    ⟨List.Pairwise.nil, by simp [emptyPerfStore]⟩
    (by intro u a m; simp [countKey, emptyPerfStore]) rfl rfl

/-- C7: when no validated performance document matches the summary filter
for a user and year (optionally one month), summarize answers the all-zero
object — totals, count, average satisfaction and both rate fields all 0 —
and never an error (summarize is total). -/
theorem summarize_empty_is_all_zero (recs : List Perf) (uid annee : Nat)
    (mois : Option Nat)
    (h : recs.filter (summaryMatch uid annee mois) = []) :
    summarize recs uid annee mois = zeroSummary := by
  unfold summarize
  rw [h]
  rfl

theorem summarize_empty_is_all_zero_witness :
    summarize [] 1 2024 none = zeroSummary :=
  summarize_empty_is_all_zero [] 1 2024 none rfl

/-- C8: each stored document's derived rates follow the zero-guarded
rounded-percentage formula of the spec — conversion = round(100 ×
sales/appointments) with 0 when appointments = 0, completion = round(100 ×
files-updated/total-files) with 0 when total = 0, target attainment =
round(100 × revenue/target) with 0 when target = 0; on the sample record,
40 appointments and 20 sales give 50 and revenue 90000 against target
100000 gives 90; and the summary's two aggregate rates obey the same
zero-guarded formulas on its own totals (for the revenue rate, under the
schema's guarantee that stored targets are non-negative). -/
theorem derived_rates_match_spec_formula :
    (∀ p : Perf, tauxTransformation p
        = rateSpec (p.ventesRealisees : ℚ) (p.rdvRealises : ℚ)) ∧
    (∀ p : Perf, completudeDossiers p
        = rateSpec (p.dossiersMAJ : ℚ) (p.totalDossiers : ℚ)) ∧
    (∀ p : Perf, tauxObjectif p = rateSpec p.chiffreAffaires p.objectifCA) ∧
    tauxTransformation samplePerf = 50 ∧
    tauxObjectif samplePerf = 90 ∧
    (∀ (recs : List Perf) (uid annee : Nat) (mois : Option Nat),
        (summarize recs uid annee mois).tauxTransformation
          = rateSpec ((summarize recs uid annee mois).totalVentes : ℚ)
              ((summarize recs uid annee mois).totalRDV : ℚ)) ∧
    (∀ (recs : List Perf) (uid annee : Nat) (mois : Option Nat),
        (∀ r ∈ recs, 0 ≤ r.objectifCA) →
        (summarize recs uid annee mois).tauxObjectif
          = rateSpec (summarize recs uid annee mois).totalCA
              (summarize recs uid annee mois).totalObjectif) := by
  refine ⟨?_, ?_, ?_, ?_, ?_, ?_, ?_⟩
  · intro p
    unfold tauxTransformation rateSpec
    by_cases h : p.rdvRealises = 0
    · simp [h]
    · rw [if_neg h, if_neg (by exact_mod_cast h)]
      congr 1
      ring
  · intro p
    unfold completudeDossiers rateSpec
    by_cases h : p.totalDossiers = 0
    · simp [h]
    · rw [if_neg h, if_neg (by exact_mod_cast h)]
      congr 1
      ring
  · intro p
    unfold tauxObjectif rateSpec
    by_cases h : p.objectifCA = 0
    · simp [h]
    · rw [if_neg h, if_neg h]
      congr 1
      ring
  · norm_num [tauxTransformation, samplePerf, jsRound]
  · norm_num [tauxObjectif, samplePerf, jsRound]
  · intro recs uid annee mois
    simp only [summarize]
    by_cases h : ((recs.filter (summaryMatch uid annee mois)).map
        (·.rdvRealises)).sum = 0
    · simp [h, rateSpec]
    · rw [if_pos (by omega), rateSpec, if_neg (by exact_mod_cast h)]
      congr 1
      ring
  · intro recs uid annee mois hnn
    simp only [summarize]
    have hge : 0 ≤ ((recs.filter (summaryMatch uid annee mois)).map
        (·.objectifCA)).sum := by
      apply List.sum_nonneg
      intro x hx
      rw [List.mem_map] at hx
      obtain ⟨r, hr, hrx⟩ := hx
      rw [← hrx]
      exact hnn r (List.mem_of_mem_filter hr)
    by_cases h : ((recs.filter (summaryMatch uid annee mois)).map
        (·.objectifCA)).sum = 0
    · simp [h, rateSpec]
    · rw [if_pos (lt_of_le_of_ne hge (Ne.symm h)), rateSpec, if_neg h]
      congr 1
      ring

theorem derived_rates_match_spec_formula_witness :
    (summarize [samplePerf] 1 2024 none).tauxObjectif
      = rateSpec (summarize [samplePerf] 1 2024 none).totalCA
          (summarize [samplePerf] 1 2024 none).totalObjectif :=
  derived_rates_match_spec_formula.2.2.2.2.2.2 [samplePerf] 1 2024 none
    (by
      intro r hr
      rcases List.mem_singleton.mp hr with rfl
      norm_num [samplePerf])

/-- C9: on the single-record routes the caller's role is irrelevant — for
any caller (admin and manager included) who does not own the record, GET
answers Forbidden (403) and DELETE answers Forbidden (403) leaving the
store untouched; NotFound (404) is answered exactly when no document with
the requested id exists. -/
theorem non_owner_single_record_access_forbidden (s : PerfStore)
    (caller : User) (pid : Nat) :
    (∀ p, s.recs.find? (fun r => r.pid == pid) = some p →
        p.utilisateur ≠ caller.uid →
        getPerformanceById s caller pid = .forbidden ∧
        RecOutcome.status (getPerformanceById s caller pid) = 403 ∧
        deletePerformanceById s caller pid = (.forbidden, s)) ∧
    (s.recs.find? (fun r => r.pid == pid) = none →
        getPerformanceById s caller pid = .notFound ∧
        RecOutcome.status (getPerformanceById s caller pid) = 404 ∧
        deletePerformanceById s caller pid = (.notFound, s)) := by
  constructor
  · intro p hf hown
    simp [getPerformanceById, deletePerformanceById, hf, hown,
      RecOutcome.status]
  · intro hf
    simp [getPerformanceById, deletePerformanceById, hf, RecOutcome.status]

theorem non_owner_single_record_access_forbidden_witness :
    getPerformanceById seededStore otherCaller 1 = .forbidden ∧
    RecOutcome.status (getPerformanceById seededStore otherCaller 1) = 403 ∧
    deletePerformanceById seededStore otherCaller 1
        = (.forbidden, seededStore) :=
  (non_owner_single_record_access_forbidden seededStore otherCaller 1).1
    samplePerf rfl (by decide)

/-- C10: registration persists whatever role the body carries, with no
authentication and no restriction beyond the schema enum — for any valid
body naming a role of the enum (so in particular "admin" or "manager") the
created user holds exactly that role, and the default "utilisateur" is
applied exactly when the body omits the field. -/
theorem register_persists_caller_supplied_role (users : List User)
    (inp : RegisterInput) (emailOk : Bool) (newId now : Nat)
    (hv : registerBodyOk inp emailOk = true)
    (hd : (users.any fun u => u.email == strLower inp.email) = false) :
    (∀ r, r ∈ roleEnum → inp.role = some r →
        ∃ u, (register users inp emailOk newId now).1 = .created u ∧
          u.role = r ∧
          (register users inp emailOk newId now).2 = users ++ [u]) ∧
    (inp.role = none →
        ∃ u, (register users inp emailOk newId now).1 = .created u ∧
          u.role = "utilisateur" ∧
          (register users inp emailOk newId now).2 = users ++ [u]) := by
  constructor
  · intro r hr hsome
    refine ⟨{ uid := newId, nom := strTrim inp.nom, prenom := strTrim inp.prenom,
              email := strLower inp.email, statut := "actif", role := r,
              tentativesConnexion := 0, compteBloque := false,
              dateBlocage := none, derniereConnexion := now },
            ?_, rfl, ?_⟩ <;>
      simp [register, hv, hd, hsome, hr]
  · intro hnone
    refine ⟨{ uid := newId, nom := strTrim inp.nom, prenom := strTrim inp.prenom,
              email := strLower inp.email, statut := "actif",
              role := "utilisateur", tentativesConnexion := 0,
              compteBloque := false, dateBlocage := none,
              derniereConnexion := now },
            ?_, rfl, ?_⟩ <;>
      simp [register, hv, hd, hnone]

theorem register_persists_caller_supplied_role_witness :
    ∃ u, (register [] adminRegBody true 1 0).1 = .created u ∧
      u.role = "admin" ∧
      (register [] adminRegBody true 1 0).2 = [] ++ [u] :=
  (register_persists_caller_supplied_role [] adminRegBody true 1 0
      rfl rfl).1 "admin" (by decide) rfl

/-- C2 fails on the code: the cross-field checks live in the
performanceSchema pre("save") hook, which Mongoose does not run on the
findByIdAndUpdate used by the upsert's update path (runValidators re-runs
only the path validators).  At this concrete input — an existing record
for (user 1, 2024, 3) and a second upsert carrying 5 sales against 3
appointments — the payload is exactly what the hook rejects, yet the
update path reports 200 updated and persists the inconsistent document;
the create path with the same payload on an empty store is rejected with
nothing persisted, showing the divergence between the two paths. -/
theorem update_path_skips_cross_field_checks :
    preSaveOk (docOfPayload samplePerf.pid 1 inconsistentPayload) = false ∧
    (upsert seededStore 1 inconsistentPayload).1
        = .updated (docOfPayload samplePerf.pid 1 inconsistentPayload) ∧
    UpsertOutcome.status (upsert seededStore 1 inconsistentPayload).1
        = 200 ∧
    docOfPayload samplePerf.pid 1 inconsistentPayload
        ∈ (upsert seededStore 1 inconsistentPayload).2.recs ∧
    (docOfPayload samplePerf.pid 1 inconsistentPayload).rdvRealises
        < (docOfPayload samplePerf.pid 1 inconsistentPayload).ventesRealisees ∧
    (upsert emptyPerfStore 1 inconsistentPayload).1 = .serverError ∧
    (upsert emptyPerfStore 1 inconsistentPayload).2 = emptyPerfStore := by
  decide

end Wawtelecom
